import Mathlib

/-!
Shallow embedding of the contract module of the ibkr_rust repository
(src/src/contract.rs): the Contract sum type over seven instrument
records, its narrowing coercions, the Security capability interface and
its dispatch, Query parsing from text, the query-resolution protocol
(the new function), and the Proxy wrapper with its accessors and
narrowing operations.

Conventions of the embedding:
- Rust i64 is modelled as Int with the i64 range enforced where the
  source enforces it (integer parsing); u32 multiplier fields are Nat.
- Rust f64 fields are only ever stored and returned by this module,
  never computed with, so they are carried by an abstract 64-bit token
  type F64 with decidable equality.
- Currency, Routing, Primary and ContractType come from sibling modules
  that are not part of the visible source; they are modelled from the
  spec as opaque value types, with Routing.smart named because the
  source mentions it.
- The FIGI validator (crate figi) and the standard-library Unicode
  test char::is_numeric are external to the visible source; the Query
  parsing embedding takes both as explicit function parameters, so the
  theorems quantify over every possible behaviour of each.
- anyhow error values are modelled by the message strings the source
  formats, or by small inductive error types where the source builds
  structured errors.
-/

/-- Carrier for Rust f64 fields. The source only stores and returns
these values (no float arithmetic occurs in the module), so the
embedding uses an abstract 64-bit-pattern carrier. -/
structure F64 where
  bits : Nat
deriving DecidableEq

/-- Modelled from the spec: Currency is an opaque value enumeration
supplied by the currency module, which is outside the visible source;
this module only stores and compares such values. -/
structure Currency where
  code : String
deriving DecidableEq

/-- Modelled from the spec: Primary (exchange) is an opaque value
enumeration supplied by the exchange module, outside the visible
source. -/
structure Primary where
  venue : String
deriving DecidableEq

/-- Modelled from the spec: Routing is an opaque value enumeration from
the exchange module, outside the visible source. The spec names the
Smart routing (broker-optimized venue selection), which Query parsing
uses as its default; other venues are carried opaquely. -/
inductive Routing where
  | smart
  | other (venue : String)
deriving DecidableEq

/-- Modelled from the spec: ContractType is the external enumeration
from the execution module that Proxy.contract_type maps into. -/
inductive ContractType where
  | Forex
  | Crypto
  | Stock
  | Index
  | Commodity
  | SecFuture
  | SecOption
deriving DecidableEq

/-- chrono NaiveDate, stored and returned unchanged by this module. -/
structure NaiveDate where
  year : Int
  month : Nat
  day : Nat
deriving DecidableEq

/-- A unique identifier used by IBKR trading systems (struct ContractId,
a newtype over i64). -/
structure ContractId where
  id : Int
deriving DecidableEq

/-- Industry / regulatory identifiers (enum SecurityId). -/
inductive SecurityId where
  | Cusip (s : String)
  | Sedol (s : String)
  | Isin (s : String)
  | Ric (s : String)
deriving DecidableEq

/-- Validated FIGI identifier from the figi module (outside the visible
source); treated as an opaque validated wrapper. -/
structure Figi where
  id : String
deriving DecidableEq

/-- FIGI validation error from the figi module (outside the visible
source); opaque payload. -/
structure InvalidFigi where
  msg : String
deriving DecidableEq

-- ====================================================================
-- Integer parsing: Rust i64::from_str (std from_str_radix, radix 10)
-- ====================================================================

/-- Error kinds of Rust ParseIntError as produced by from_str_radix for
a signed integer type at radix 10. -/
inductive ParseIntError where
  | empty
  | invalidDigit
  | posOverflow
  | negOverflow
deriving DecidableEq

/-- Largest i64 value. -/
def i64Max : Int := 9223372036854775807

/-- Smallest i64 value. -/
def i64Min : Int := -9223372036854775808

/-- Numeric value of an ASCII digit, none for any other character
(Rust char::to_digit at radix 10). -/
def digitVal (c : Char) : Option Nat :=
  if c.isDigit then some (c.toNat - 48) else none

/-- Digit-accumulation loop of from_str_radix for a non-negative result:
each step multiplies by ten and adds the digit, failing with
posOverflow as soon as the accumulator leaves the i64 range and with
invalidDigit on a non-digit character. -/
def parsePosDigits : List Char → Int → Except ParseIntError Int
  | [], acc => Except.ok acc
  | c :: cs, acc =>
    match digitVal c with
    | none => Except.error ParseIntError.invalidDigit
    | some d =>
      let acc2 := acc * 10 + (d : Int)
      if i64Max < acc2 then Except.error ParseIntError.posOverflow
      else parsePosDigits cs acc2

/-- Digit-accumulation loop of from_str_radix for a negative result:
each step multiplies by ten and subtracts the digit, failing with
negOverflow as soon as the accumulator leaves the i64 range. -/
def parseNegDigits : List Char → Int → Except ParseIntError Int
  | [], acc => Except.ok acc
  | c :: cs, acc =>
    match digitVal c with
    | none => Except.error ParseIntError.invalidDigit
    | some d =>
      let acc2 := acc * 10 - (d : Int)
      if acc2 < i64Min then Except.error ParseIntError.negOverflow
      else parseNegDigits cs acc2

/-- Rust i64::from_str: empty input is the empty error; a lone sign is
an invalid digit; otherwise an optional sign followed by the digit
loop. -/
def parseI64 (s : String) : Except ParseIntError Int :=
  match s.data with
  | [] => Except.error ParseIntError.empty
  | c :: cs =>
    if c = '+' then
      match cs with
      | [] => Except.error ParseIntError.invalidDigit
      | _ => parsePosDigits cs 0
    else if c = '-' then
      match cs with
      | [] => Except.error ParseIntError.invalidDigit
      | _ => parseNegDigits cs 0
    else parsePosDigits (c :: cs) 0

/-- impl FromStr for ContractId: parse the integer and wrap it. -/
def ContractId.fromStr (s : String) : Except ParseIntError ContractId :=
  (parseI64 s).map ContractId.mk

-- ====================================================================
-- Query and its parsing (impl FromStr for Query)
-- ====================================================================

/-- Alias for the Figi record, for signatures inside namespaces where a
constructor of the same name shadows it. -/
abbrev FigiRecord := Figi

/-- enum Query: either an IBKR contract id with routing, or a FIGI. -/
inductive Query where
  | IbContractId (id : ContractId) (routing : Routing)
  | Figi (f : Figi)
deriving DecidableEq

/-- enum InvalidQuery: the ways a textual query can be invalid. -/
inductive InvalidQuery where
  | IbContractId (e : ParseIntError)
  | Figi (e : InvalidFigi)
  | Empty
deriving DecidableEq

/-- impl FromStr for Query. The first character decides the branch: a
missing first character is the Empty error; a numeric first character
sends the whole string to the integer contract-id branch with Smart
routing; anything else goes to FIGI validation. isNum stands for the
standard-library Unicode test char::is_numeric and parseFigi for the
figi-module validator, both external to the visible source and passed
as parameters. -/
def Query.fromStr (isNum : Char → Bool)
    (parseFigi : String → Except InvalidFigi FigiRecord)
    (s : String) : Except InvalidQuery Query :=
  match s.data with
  | [] => Except.error InvalidQuery.Empty
  | c :: _ =>
    if isNum c then
      match ContractId.fromStr s with
      | Except.ok cid => Except.ok (Query.IbContractId cid Routing.smart)
      | Except.error e => Except.error (InvalidQuery.IbContractId e)
    else
      match parseFigi s with
      | Except.ok f => Except.ok (Query.Figi f)
      | Except.error e => Except.error (InvalidQuery.Figi e)

-- ====================================================================
-- Concrete instrument records (make_contract! expansions)
-- ====================================================================

/-- struct Forex. -/
structure Forex where
  contract_id : ContractId
  min_tick : F64
  symbol : String
  exchange : Routing
  trading_class : String
  currency : Currency
  local_symbol : String
  long_name : String
  order_types : List String
  valid_exchanges : List Routing
deriving DecidableEq

/-- struct Crypto. -/
structure Crypto where
  contract_id : ContractId
  min_tick : F64
  symbol : String
  trading_class : String
  currency : Currency
  local_symbol : String
  long_name : String
  order_types : List String
  valid_exchanges : List Routing
deriving DecidableEq

/-- struct Stock. -/
structure Stock where
  contract_id : ContractId
  min_tick : F64
  symbol : String
  exchange : Routing
  primary_exchange : Primary
  stock_type : String
  security_ids : List SecurityId
  sector : String
  trading_class : String
  currency : Currency
  local_symbol : String
  long_name : String
  order_types : List String
  valid_exchanges : List Routing
deriving DecidableEq

/-- struct Index. -/
structure Index where
  contract_id : ContractId
  min_tick : F64
  symbol : String
  exchange : Routing
  currency : Currency
  local_symbol : String
  long_name : String
  order_types : List String
  valid_exchanges : List Routing
deriving DecidableEq

/-- struct Commodity. -/
structure Commodity where
  contract_id : ContractId
  min_tick : F64
  symbol : String
  exchange : Routing
  trading_class : String
  currency : Currency
  local_symbol : String
  long_name : String
  order_types : List String
  valid_exchanges : List Routing
deriving DecidableEq

/-- struct SecFuture. -/
structure SecFuture where
  contract_id : ContractId
  min_tick : F64
  symbol : String
  exchange : Routing
  multiplier : Nat
  expiration_date : NaiveDate
  trading_class : String
  underlying_contract_id : ContractId
  currency : Currency
  local_symbol : String
  long_name : String
  order_types : List String
  valid_exchanges : List Routing
deriving DecidableEq

/-- struct SecOptionInner: the shared field record of an option. -/
structure SecOptionInner where
  contract_id : ContractId
  min_tick : F64
  symbol : String
  exchange : Routing
  strike : F64
  multiplier : Nat
  expiration_date : NaiveDate
  underlying_contract_id : ContractId
  sector : String
  trading_class : String
  currency : Currency
  local_symbol : String
  long_name : String
  order_types : List String
  valid_exchanges : List Routing
deriving DecidableEq

/-- enum SecOption: a call or a put around the shared inner record. -/
inductive SecOption where
  | Call (inner : SecOptionInner)
  | Put (inner : SecOptionInner)
deriving DecidableEq

/-- SecOption::is_call: matches the Call constructor. -/
def SecOption.is_call : SecOption → Bool
  | SecOption.Call _ => true
  | _ => false

/-- SecOption::is_put: the source defines it as the negation of
is_call. -/
def SecOption.is_put (o : SecOption) : Bool :=
  !o.is_call

/-- SecOption::as_inner_ref: the shared inner record, whichever tag is
held. -/
def SecOption.as_inner_ref : SecOption → SecOptionInner
  | SecOption.Call inner => inner
  | SecOption.Put inner => inner

/-- SecOption::into_inner: the shared inner record, whichever tag is
held. -/
def SecOption.into_inner : SecOption → SecOptionInner
  | SecOption.Call inner => inner
  | SecOption.Put inner => inner

-- ====================================================================
-- Contract sum type and narrowing (contract_impl! expansions)
-- ====================================================================

/-- Alias for the Forex record, for signatures under the Contract
namespace where the constructor of the same name shadows it. -/
abbrev ForexRecord := Forex

/-- Alias for the Crypto record, for signatures under the Contract
namespace where the constructor of the same name shadows it. -/
abbrev CryptoRecord := Crypto

/-- Alias for the Stock record, for signatures under the Contract
namespace where the constructor of the same name shadows it. -/
abbrev StockRecord := Stock

/-- Alias for the Index record, for signatures under the Contract
namespace where the constructor of the same name shadows it. -/
abbrev IndexRecord := Index

/-- Alias for the SecFuture record, for signatures under the Contract
namespace where the constructor of the same name shadows it. -/
abbrev SecFutureRecord := SecFuture

/-- Alias for the SecOption type, for signatures under the Contract
namespace where the constructor of the same name shadows it. -/
abbrev SecOptionRecord := SecOption

/-- Alias for the Commodity record, for signatures under the Contract
namespace where the constructor of the same name shadows it. -/
abbrev CommodityRecord := Commodity

/-- enum Contract: the closed union over the seven instrument
records. -/
inductive Contract where
  | Forex (t : Forex)
  | Crypto (t : Crypto)
  | Stock (t : Stock)
  | Index (t : Index)
  | SecFuture (t : SecFuture)
  | SecOption (t : SecOption)
  | Commodity (t : Commodity)
deriving DecidableEq

/-- The wrong-variant message the contract_impl! and proxy_impl! macros
format with anyhow: the format string of the source with the coercion
function name spliced in. -/
def wrongContractType (funcName : String) : String :=
  "Expected " ++ funcName ++ "; found other contract type."

/-- Contract::forex_ref, the borrowing narrow to Forex. -/
def Contract.forex_ref : Contract → Except String ForexRecord
  | Contract.Forex t => Except.ok t
  | _ => Except.error (wrongContractType "forex")

/-- Contract::forex, the consuming narrow to Forex. -/
def Contract.forex : Contract → Except String ForexRecord
  | Contract.Forex t => Except.ok t
  | _ => Except.error (wrongContractType "forex")

/-- Contract::crypto_ref, the borrowing narrow to Crypto. -/
def Contract.crypto_ref : Contract → Except String CryptoRecord
  | Contract.Crypto t => Except.ok t
  | _ => Except.error (wrongContractType "crypto")

/-- Contract::crypto, the consuming narrow to Crypto. -/
def Contract.crypto : Contract → Except String CryptoRecord
  | Contract.Crypto t => Except.ok t
  | _ => Except.error (wrongContractType "crypto")

/-- Contract::stock_ref, the borrowing narrow to Stock. -/
def Contract.stock_ref : Contract → Except String StockRecord
  | Contract.Stock t => Except.ok t
  | _ => Except.error (wrongContractType "stock")

/-- Contract::stock, the consuming narrow to Stock. -/
def Contract.stock : Contract → Except String StockRecord
  | Contract.Stock t => Except.ok t
  | _ => Except.error (wrongContractType "stock")

/-- Contract::index_ref, the borrowing narrow to Index. -/
def Contract.index_ref : Contract → Except String IndexRecord
  | Contract.Index t => Except.ok t
  | _ => Except.error (wrongContractType "index")

/-- Contract::index, the consuming narrow to Index. -/
def Contract.index : Contract → Except String IndexRecord
  | Contract.Index t => Except.ok t
  | _ => Except.error (wrongContractType "index")

/-- Contract::secfuture_ref, the borrowing narrow to SecFuture. -/
def Contract.secfuture_ref : Contract → Except String SecFutureRecord
  | Contract.SecFuture t => Except.ok t
  | _ => Except.error (wrongContractType "secfuture")

/-- Contract::secfuture, the consuming narrow to SecFuture. -/
def Contract.secfuture : Contract → Except String SecFutureRecord
  | Contract.SecFuture t => Except.ok t
  | _ => Except.error (wrongContractType "secfuture")

/-- Contract::secoption_ref, the borrowing narrow to SecOption. -/
def Contract.secoption_ref : Contract → Except String SecOptionRecord
  | Contract.SecOption t => Except.ok t
  | _ => Except.error (wrongContractType "secoption")

/-- Contract::secoption, the consuming narrow to SecOption. -/
def Contract.secoption : Contract → Except String SecOptionRecord
  | Contract.SecOption t => Except.ok t
  | _ => Except.error (wrongContractType "secoption")

/-- Contract::commodity_ref, the borrowing narrow to Commodity. -/
def Contract.commodity_ref : Contract → Except String CommodityRecord
  | Contract.Commodity t => Except.ok t
  | _ => Except.error (wrongContractType "commodity")

/-- Contract::commodity, the consuming narrow to Commodity. -/
def Contract.commodity : Contract → Except String CommodityRecord
  | Contract.Commodity t => Except.ok t
  | _ => Except.error (wrongContractType "commodity")

-- ====================================================================
-- Security capability interface (trait Security) and its impls
-- ====================================================================

/-- trait Security: the capability interface every instrument record and
the Contract union implement. -/
class Security (S : Type) where
  contract_id : S → ContractId
  min_tick : S → F64
  symbol : S → String
  currency : S → Currency
  local_symbol : S → String
  long_name : S → String
  order_types : S → List String
  valid_exchanges : S → List Routing

/-- Modelled from the spec: the derive(Security) and make_getters macros
(crate ibapi_macros, outside the visible source) generate pure per-field
accessors for each record; the capability interface on Forex reads the
fields of the record. -/
instance : Security Forex where
  contract_id t := t.contract_id
  min_tick t := t.min_tick
  symbol t := t.symbol
  currency t := t.currency
  local_symbol t := t.local_symbol
  long_name t := t.long_name
  order_types t := t.order_types
  valid_exchanges t := t.valid_exchanges

/-- Modelled from the spec: field accessors for Crypto. -/
instance : Security Crypto where
  contract_id t := t.contract_id
  min_tick t := t.min_tick
  symbol t := t.symbol
  currency t := t.currency
  local_symbol t := t.local_symbol
  long_name t := t.long_name
  order_types t := t.order_types
  valid_exchanges t := t.valid_exchanges

/-- Modelled from the spec: field accessors for Stock. -/
instance : Security Stock where
  contract_id t := t.contract_id
  min_tick t := t.min_tick
  symbol t := t.symbol
  currency t := t.currency
  local_symbol t := t.local_symbol
  long_name t := t.long_name
  order_types t := t.order_types
  valid_exchanges t := t.valid_exchanges

/-- Modelled from the spec: field accessors for Index. -/
instance : Security Index where
  contract_id t := t.contract_id
  min_tick t := t.min_tick
  symbol t := t.symbol
  currency t := t.currency
  local_symbol t := t.local_symbol
  long_name t := t.long_name
  order_types t := t.order_types
  valid_exchanges t := t.valid_exchanges

/-- Modelled from the spec: field accessors for Commodity. -/
instance : Security Commodity where
  contract_id t := t.contract_id
  min_tick t := t.min_tick
  symbol t := t.symbol
  currency t := t.currency
  local_symbol t := t.local_symbol
  long_name t := t.long_name
  order_types t := t.order_types
  valid_exchanges t := t.valid_exchanges

/-- Modelled from the spec: field accessors for SecFuture. -/
instance : Security SecFuture where
  contract_id t := t.contract_id
  min_tick t := t.min_tick
  symbol t := t.symbol
  currency t := t.currency
  local_symbol t := t.local_symbol
  long_name t := t.long_name
  order_types t := t.order_types
  valid_exchanges t := t.valid_exchanges

/-- Modelled from the spec: derive(Security) on the SecOption enum reads
the shared inner record regardless of the Call/Put tag. -/
instance : Security SecOption where
  contract_id o := o.as_inner_ref.contract_id
  min_tick o := o.as_inner_ref.min_tick
  symbol o := o.as_inner_ref.symbol
  currency o := o.as_inner_ref.currency
  local_symbol o := o.as_inner_ref.local_symbol
  long_name o := o.as_inner_ref.long_name
  order_types o := o.as_inner_ref.order_types
  valid_exchanges o := o.as_inner_ref.valid_exchanges

/-- impl Security for Contract, contract_id: the match_poly dispatch of
the source, one arm per variant delegating to the held record. -/
def Contract.dispatch_contract_id : Contract → ContractId
  | Contract.Forex t => Security.contract_id t
  | Contract.Crypto t => Security.contract_id t
  | Contract.Stock t => Security.contract_id t
  | Contract.Index t => Security.contract_id t
  | Contract.SecFuture t => Security.contract_id t
  | Contract.SecOption t => Security.contract_id t
  | Contract.Commodity t => Security.contract_id t

/-- impl Security for Contract, min_tick: match_poly dispatch. -/
def Contract.dispatch_min_tick : Contract → F64
  | Contract.Forex t => Security.min_tick t
  | Contract.Crypto t => Security.min_tick t
  | Contract.Stock t => Security.min_tick t
  | Contract.Index t => Security.min_tick t
  | Contract.SecFuture t => Security.min_tick t
  | Contract.SecOption t => Security.min_tick t
  | Contract.Commodity t => Security.min_tick t

/-- impl Security for Contract, symbol: match_poly dispatch. -/
def Contract.dispatch_symbol : Contract → String
  | Contract.Forex t => Security.symbol t
  | Contract.Crypto t => Security.symbol t
  | Contract.Stock t => Security.symbol t
  | Contract.Index t => Security.symbol t
  | Contract.SecFuture t => Security.symbol t
  | Contract.SecOption t => Security.symbol t
  | Contract.Commodity t => Security.symbol t

/-- impl Security for Contract, currency: match_poly dispatch. -/
def Contract.dispatch_currency : Contract → Currency
  | Contract.Forex t => Security.currency t
  | Contract.Crypto t => Security.currency t
  | Contract.Stock t => Security.currency t
  | Contract.Index t => Security.currency t
  | Contract.SecFuture t => Security.currency t
  | Contract.SecOption t => Security.currency t
  | Contract.Commodity t => Security.currency t

/-- impl Security for Contract, local_symbol: match_poly dispatch. -/
def Contract.dispatch_local_symbol : Contract → String
  | Contract.Forex t => Security.local_symbol t
  | Contract.Crypto t => Security.local_symbol t
  | Contract.Stock t => Security.local_symbol t
  | Contract.Index t => Security.local_symbol t
  | Contract.SecFuture t => Security.local_symbol t
  | Contract.SecOption t => Security.local_symbol t
  | Contract.Commodity t => Security.local_symbol t

/-- impl Security for Contract, long_name: match_poly dispatch. -/
def Contract.dispatch_long_name : Contract → String
  | Contract.Forex t => Security.long_name t
  | Contract.Crypto t => Security.long_name t
  | Contract.Stock t => Security.long_name t
  | Contract.Index t => Security.long_name t
  | Contract.SecFuture t => Security.long_name t
  | Contract.SecOption t => Security.long_name t
  | Contract.Commodity t => Security.long_name t

/-- impl Security for Contract, order_types: match_poly dispatch. -/
def Contract.dispatch_order_types : Contract → List String
  | Contract.Forex t => Security.order_types t
  | Contract.Crypto t => Security.order_types t
  | Contract.Stock t => Security.order_types t
  | Contract.Index t => Security.order_types t
  | Contract.SecFuture t => Security.order_types t
  | Contract.SecOption t => Security.order_types t
  | Contract.Commodity t => Security.order_types t

/-- impl Security for Contract, valid_exchanges: match_poly dispatch. -/
def Contract.dispatch_valid_exchanges : Contract → List Routing
  | Contract.Forex t => Security.valid_exchanges t
  | Contract.Crypto t => Security.valid_exchanges t
  | Contract.Stock t => Security.valid_exchanges t
  | Contract.Index t => Security.valid_exchanges t
  | Contract.SecFuture t => Security.valid_exchanges t
  | Contract.SecOption t => Security.valid_exchanges t
  | Contract.Commodity t => Security.valid_exchanges t

/-- impl Security for Contract: the capability interface on the union is
the match_poly dispatch to the held variant. -/
instance : Security Contract where
  contract_id := Contract.dispatch_contract_id
  min_tick := Contract.dispatch_min_tick
  symbol := Contract.dispatch_symbol
  currency := Contract.dispatch_currency
  local_symbol := Contract.dispatch_local_symbol
  long_name := Contract.dispatch_long_name
  order_types := Contract.dispatch_order_types
  valid_exchanges := Contract.dispatch_valid_exchanges

-- ====================================================================
-- Query resolution protocol (the new function)
-- ====================================================================

/-- Transport errors of the external connection collaborator (anyhow
errors in the source), carried opaquely as their messages. -/
abbrev TransportError := String

/-- The error of the new function: a propagated transport error from
send or receive, or the unified mismatch error whose anyhow message
formats the offending query (Failed to create contract from query). -/
inductive ResolveError where
  | transport (e : TransportError)
  | unexpectedSecurityType (query : Query)
deriving DecidableEq

/-- The TryFrom conversions from each concrete record into the target
type S that the bound S: Security requires; the source erases each
conversion error to unit with map_err before unifying, so the
conversions are carried as Option-valued functions. -/
structure SecurityConv (S : Type) where
  tryFromForex : Forex → Option S
  tryFromCrypto : Crypto → Option S
  tryFromStock : Stock → Option S
  tryFromIndex : Index → Option S
  tryFromSecFuture : SecFuture → Option S
  tryFromSecOption : SecOption → Option S
  tryFromCommodity : Commodity → Option S

/-- The match of the new function over the received Contract: each arm
attempts the TryFrom conversion of its variant into S. -/
def narrowContract {S : Type} (conv : SecurityConv S) : Contract → Option S
  | Contract.Forex fx => conv.tryFromForex fx
  | Contract.Crypto c => conv.tryFromCrypto c
  | Contract.Stock stk => conv.tryFromStock stk
  | Contract.Index ind => conv.tryFromIndex ind
  | Contract.SecFuture fut => conv.tryFromSecFuture fut
  | Contract.SecOption opt => conv.tryFromSecOption opt
  | Contract.Commodity cmdty => conv.tryFromCommodity cmdty

/-- The new function (query resolution): propagate a send failure,
propagate a receive failure, otherwise narrow the received Contract to
S; on a narrow failure return the single unified error carrying the
query. send and recv stand for the two operations of the external
connection collaborator. -/
def new {S : Type} (conv : SecurityConv S)
    (send : Except TransportError Unit)
    (recv : Except TransportError Contract)
    (query : Query) : Except ResolveError S :=
  match send with
  | Except.error e => Except.error (ResolveError.transport e)
  | Except.ok _ =>
    match recv with
    | Except.error e => Except.error (ResolveError.transport e)
    | Except.ok c =>
      match narrowContract conv c with
      | some s => Except.ok s
      | none => Except.error (ResolveError.unexpectedSecurityType query)

/-- Modelled from the spec: the derive-generated TryFrom conversions for
the concrete target type Stock succeed exactly on the matching variant
and return its record unchanged. -/
def stockConv : SecurityConv Stock where
  tryFromForex _ := none
  tryFromCrypto _ := none
  tryFromStock t := some t
  tryFromIndex _ := none
  tryFromSecFuture _ := none
  tryFromSecOption _ := none
  tryFromCommodity _ := none

/-- Modelled from the spec: the derive-generated TryFrom conversions for
the concrete target type Forex succeed exactly on the matching variant
and return its record unchanged. -/
def forexConv : SecurityConv Forex where
  tryFromForex t := some t
  tryFromCrypto _ := none
  tryFromStock _ := none
  tryFromIndex _ := none
  tryFromSecFuture _ := none
  tryFromSecOption _ := none
  tryFromCommodity _ := none

-- ====================================================================
-- Proxy wrapper (struct Proxy and its impls)
-- ====================================================================

/-- struct Proxy: a generic holder of one instrument value. -/
structure Proxy (S : Type) where
  inner : S

/-- Proxy contract_id accessor: delegates to the inner contract_id. -/
def Proxy.contract_id {S : Type} [Security S] (p : Proxy S) : ContractId :=
  Security.contract_id p.inner

/-- Proxy symbol accessor: delegates to the inner symbol. -/
def Proxy.symbol {S : Type} [Security S] (p : Proxy S) : String :=
  Security.symbol p.inner

/-- Proxy currency accessor: delegates to the inner currency. -/
def Proxy.currency {S : Type} [Security S] (p : Proxy S) : Currency :=
  Security.currency p.inner

/-- Proxy local_symbol accessor, exactly as the source writes it: the
body of the method named local_symbol calls the inner symbol accessor,
not the inner local_symbol accessor. -/
def Proxy.local_symbol {S : Type} [Security S] (p : Proxy S) : String :=
  Security.symbol p.inner

/-- Proxy.contract_type: the tag-to-ContractType mapping on a held
Contract. -/
def Proxy.contract_type (p : Proxy Contract) : ContractType :=
  match p.inner with
  | Contract.Forex _ => ContractType.Forex
  | Contract.Crypto _ => ContractType.Crypto
  | Contract.Stock _ => ContractType.Stock
  | Contract.Index _ => ContractType.Index
  | Contract.Commodity _ => ContractType.Commodity
  | Contract.SecFuture _ => ContractType.SecFuture
  | Contract.SecOption _ => ContractType.SecOption

/-- Proxy narrowing to Forex (proxy_impl! expansion, function name
forex). -/
def Proxy.forex (p : Proxy Contract) : Except String (Proxy ForexRecord) :=
  match p.inner with
  | Contract.Forex t => Except.ok (Proxy.mk t)
  | _ => Except.error (wrongContractType "forex")

/-- Proxy narrowing to Crypto (proxy_impl! expansion, function name
crypto). -/
def Proxy.crypto (p : Proxy Contract) : Except String (Proxy CryptoRecord) :=
  match p.inner with
  | Contract.Crypto t => Except.ok (Proxy.mk t)
  | _ => Except.error (wrongContractType "crypto")

/-- Proxy narrowing to Stock (proxy_impl! expansion, function name
stock). -/
def Proxy.stock (p : Proxy Contract) : Except String (Proxy StockRecord) :=
  match p.inner with
  | Contract.Stock t => Except.ok (Proxy.mk t)
  | _ => Except.error (wrongContractType "stock")

/-- Proxy narrowing to Index (proxy_impl! expansion, function name
index). -/
def Proxy.index (p : Proxy Contract) : Except String (Proxy IndexRecord) :=
  match p.inner with
  | Contract.Index t => Except.ok (Proxy.mk t)
  | _ => Except.error (wrongContractType "index")

/-- Proxy narrowing to Commodity (proxy_impl! expansion, function name
commodity). -/
def Proxy.commodity (p : Proxy Contract) : Except String (Proxy CommodityRecord) :=
  match p.inner with
  | Contract.Commodity t => Except.ok (Proxy.mk t)
  | _ => Except.error (wrongContractType "commodity")

/-- Proxy narrowing to SecFuture (proxy_impl! expansion, function name
sec_future). -/
def Proxy.sec_future (p : Proxy Contract) : Except String (Proxy SecFutureRecord) :=
  match p.inner with
  | Contract.SecFuture t => Except.ok (Proxy.mk t)
  | _ => Except.error (wrongContractType "sec_future")

/-- Proxy narrowing to SecOption (proxy_impl! expansion, function name
sec_option). -/
def Proxy.sec_option (p : Proxy Contract) : Except String (Proxy SecOptionRecord) :=
  match p.inner with
  | Contract.SecOption t => Except.ok (Proxy.mk t)
  | _ => Except.error (wrongContractType "sec_option")

/-- Proxy on SecFuture: trading_class field read. -/
def Proxy.futTradingClass (p : Proxy SecFuture) : String :=
  p.inner.trading_class

/-- Proxy on SecFuture: expiration_date field read. -/
def Proxy.expiration_date (p : Proxy SecFuture) : NaiveDate :=
  p.inner.expiration_date

/-- Proxy on SecFuture: multiplier field read. -/
def Proxy.multiplier (p : Proxy SecFuture) : Nat :=
  p.inner.multiplier

-- ====================================================================
-- Sample values used to instantiate the theorems at concrete inputs
-- ====================================================================

/-- Concrete FIGI validator used to instantiate theorems at concrete
inputs: accepts the sample FIGI of the spec scenario and rejects any
other string. -/
def figiStub (s : String) : Except InvalidFigi Figi :=
  if s = "BBG000B9XRY4" then Except.ok (Figi.mk s)
  else Except.error (InvalidFigi.mk s)

/-- A concrete Forex record. -/
def sampleForex : Forex :=
  ⟨ContractId.mk 11, F64.mk 1, "GBP", Routing.smart, "GBPUSD",
    Currency.mk "USD", "GBP.USD", "British pound", ["LMT"],
    [Routing.smart]⟩

/-- A concrete Crypto record. -/
def sampleCrypto : Crypto :=
  ⟨ContractId.mk 12, F64.mk 1, "BTC", "BTC", Currency.mk "USD", "BTC",
    "Bitcoin", ["LMT"], [Routing.smart]⟩

/-- A concrete Stock record. -/
def sampleStock : Stock :=
  ⟨ContractId.mk 265598, F64.mk 1, "AAPL", Routing.smart,
    Primary.mk "NASDAQ", "COMMON", [SecurityId.Isin "US0378331005"],
    "Technology", "NMS", Currency.mk "USD", "AAPL", "Apple Inc",
    ["LMT", "MKT"], [Routing.smart]⟩

/-- A concrete Stock record whose symbol and local symbol differ. -/
def sampleStockLS : Stock :=
  ⟨ContractId.mk 42, F64.mk 1, "SYM", Routing.smart,
    Primary.mk "NASDAQ", "COMMON", [], "Technology", "NMS",
    Currency.mk "USD", "LOC", "Some stock", ["LMT"], [Routing.smart]⟩

/-- A concrete Index record. -/
def sampleIndex : Index :=
  ⟨ContractId.mk 13, F64.mk 1, "SPX", Routing.smart, Currency.mk "USD",
    "SPX", "SP 500 index", ["LMT"], [Routing.smart]⟩

/-- A concrete Commodity record. -/
def sampleCommodity : Commodity :=
  ⟨ContractId.mk 14, F64.mk 1, "XAUUSD", Routing.smart, "XAUUSD",
    Currency.mk "USD", "XAUUSD", "Gold", ["LMT"], [Routing.smart]⟩

/-- A concrete SecFuture record with multiplier 1000 and expiration
2024-03-15, the values of the spec scenario. -/
def sampleSecFuture : SecFuture :=
  ⟨ContractId.mk 15, F64.mk 1, "FGBL", Routing.smart, 1000,
    NaiveDate.mk 2024 3 15, "FGBL", ContractId.mk 16,
    Currency.mk "EUR", "FGBL MAR 24", "Euro bund future", ["LMT"],
    [Routing.smart]⟩

/-- A concrete SecOptionInner record. -/
def sampleInner : SecOptionInner :=
  ⟨ContractId.mk 17, F64.mk 1, "BMW", Routing.smart, F64.mk 72, 100,
    NaiveDate.mk 2022 12 16, ContractId.mk 18, "Auto", "BMW",
    Currency.mk "EUR", "P BMW 20221216 72 M", "BMW option", ["LMT"],
    [Routing.smart]⟩

/-- A concrete SecOption value. -/
def sampleSecOption : SecOption :=
  SecOption.Put sampleInner

-- ====================================================================
-- Theorems
-- ====================================================================

/-- C1: for every Contract, each narrowing pair behaves uniformly: when
the held variant matches the requested one, both the borrowing narrow
and the consuming narrow return the held record unchanged; when it does
not match, both fail with the wrong-contract-type message naming the
expected coercion. -/
theorem contract_narrow_spec (c : Contract) :
    ((∀ t, c = Contract.Forex t → c.forex_ref = Except.ok t ∧ c.forex = Except.ok t)
      ∧ ((∀ t, c ≠ Contract.Forex t) →
          c.forex_ref = Except.error (wrongContractType "forex")
            ∧ c.forex = Except.error (wrongContractType "forex")))
  ∧ ((∀ t, c = Contract.Crypto t → c.crypto_ref = Except.ok t ∧ c.crypto = Except.ok t)
      ∧ ((∀ t, c ≠ Contract.Crypto t) →
          c.crypto_ref = Except.error (wrongContractType "crypto")
            ∧ c.crypto = Except.error (wrongContractType "crypto")))
  ∧ ((∀ t, c = Contract.Stock t → c.stock_ref = Except.ok t ∧ c.stock = Except.ok t)
      ∧ ((∀ t, c ≠ Contract.Stock t) →
          c.stock_ref = Except.error (wrongContractType "stock")
            ∧ c.stock = Except.error (wrongContractType "stock")))
  ∧ ((∀ t, c = Contract.Index t → c.index_ref = Except.ok t ∧ c.index = Except.ok t)
      ∧ ((∀ t, c ≠ Contract.Index t) →
          c.index_ref = Except.error (wrongContractType "index")
            ∧ c.index = Except.error (wrongContractType "index")))
  ∧ ((∀ t, c = Contract.SecFuture t →
        c.secfuture_ref = Except.ok t ∧ c.secfuture = Except.ok t)
      ∧ ((∀ t, c ≠ Contract.SecFuture t) →
          c.secfuture_ref = Except.error (wrongContractType "secfuture")
            ∧ c.secfuture = Except.error (wrongContractType "secfuture")))
  ∧ ((∀ t, c = Contract.SecOption t →
        c.secoption_ref = Except.ok t ∧ c.secoption = Except.ok t)
      ∧ ((∀ t, c ≠ Contract.SecOption t) →
          c.secoption_ref = Except.error (wrongContractType "secoption")
            ∧ c.secoption = Except.error (wrongContractType "secoption")))
  ∧ ((∀ t, c = Contract.Commodity t →
        c.commodity_ref = Except.ok t ∧ c.commodity = Except.ok t)
      ∧ ((∀ t, c ≠ Contract.Commodity t) →
          c.commodity_ref = Except.error (wrongContractType "commodity")
            ∧ c.commodity = Except.error (wrongContractType "commodity"))) := by
  cases c <;>
    refine ⟨⟨?_, ?_⟩, ⟨?_, ?_⟩, ⟨?_, ?_⟩, ⟨?_, ?_⟩, ⟨?_, ?_⟩, ⟨?_, ?_⟩, ⟨?_, ?_⟩⟩ <;>
    first
    | (intro t2 hEq; injection hEq with h; subst h; exact ⟨rfl, rfl⟩)
    | (intro t2 hEq; exact Contract.noConfusion hEq)
    | (intro h; exact absurd rfl (h _))
    | (intro h; exact ⟨rfl, rfl⟩)

/-- Witness for C1: the narrowing theorem applied to a concrete Stock
contract. -/
theorem contract_narrow_spec_witness :
    (Contract.Stock sampleStock).stock_ref = Except.ok sampleStock
  ∧ (Contract.Stock sampleStock).stock = Except.ok sampleStock
  ∧ (Contract.Stock sampleStock).forex = Except.error (wrongContractType "forex") := by
  have h := contract_narrow_spec (Contract.Stock sampleStock)
  exact ⟨(h.2.2.1.1 sampleStock rfl).1, (h.2.2.1.1 sampleStock rfl).2,
    (h.1.2 (fun t2 hEq => Contract.noConfusion hEq)).2⟩

/-- C2: in the resolution protocol, when send and receive both succeed,
a successful narrow of the received Contract into S yields exactly the
narrowed value, and a failed narrow yields the single unified error
carrying the query (the variant-specific conversion errors were erased
to unit before unification, so no other error can surface); with the
concrete conversions for Stock and Forex, a received Stock record is
returned unmodified when requested as Stock and produces the unified
mismatch error when requested as Forex. -/
theorem resolve_spec (S : Type) (conv : SecurityConv S) (q : Query)
    (c : Contract) :
    (∀ s, narrowContract conv c = some s →
        new conv (Except.ok ()) (Except.ok c) q = Except.ok s)
  ∧ (narrowContract conv c = none →
        new conv (Except.ok ()) (Except.ok c) q
          = Except.error (ResolveError.unexpectedSecurityType q))
  ∧ (∀ stk : Stock,
        new stockConv (Except.ok ()) (Except.ok (Contract.Stock stk)) q
          = Except.ok stk)
  ∧ (∀ stk : Stock,
        new forexConv (Except.ok ()) (Except.ok (Contract.Stock stk)) q
          = Except.error (ResolveError.unexpectedSecurityType q)) := by
  refine ⟨?_, ?_, ?_, ?_⟩
  · intro s h
    simp [new, h]
  · intro h
    simp [new, h]
  · intro stk
    rfl
  · intro stk
    rfl

/-- Witness for C2: resolving the FIGI query of the spec scenario
against a connection replying with a Stock record, requested as Stock,
returns the record unmodified. -/
theorem resolve_spec_witness :
    new stockConv (Except.ok ()) (Except.ok (Contract.Stock sampleStock))
        (Query.Figi (Figi.mk "BBG000B9XRY4"))
      = Except.ok sampleStock := by
  have h := resolve_spec Stock stockConv (Query.Figi (Figi.mk "BBG000B9XRY4"))
    (Contract.Stock sampleStock)
  exact h.1 sampleStock rfl

/-- C3: the code diverges from the claim at the local_symbol accessor of
Proxy. At a concrete Stock whose symbol is SYM and whose local symbol is
LOC, the Proxy accessor named local_symbol returns SYM, the inner symbol,
not LOC, the inner local symbol; the other three reduced accessors do
delegate to their matching capability accessors. -/
theorem proxy_local_symbol_bug :
    (Proxy.mk sampleStockLS).local_symbol = "SYM"
  ∧ Security.local_symbol sampleStockLS = "LOC"
  ∧ (Proxy.mk sampleStockLS).local_symbol ≠ Security.local_symbol sampleStockLS
  ∧ (Proxy.mk sampleStockLS).contract_id = Security.contract_id sampleStockLS
  ∧ (Proxy.mk sampleStockLS).symbol = Security.symbol sampleStockLS
  ∧ (Proxy.mk sampleStockLS).currency = Security.currency sampleStockLS := by
  refine ⟨rfl, rfl, ?_, rfl, rfl, rfl⟩
  intro hEq
  have : "SYM" = "LOC" := hEq
  simp at this

/-- C4: parsing the empty string as a Query fails with the distinct
Empty error, for every possible behaviour of the numericity test and of
the FIGI validator, so neither branch is ever reached. -/
theorem query_empty_spec (isNum : Char → Bool)
    (pf : String → Except InvalidFigi Figi) :
    Query.fromStr isNum pf "" = Except.error InvalidQuery.Empty := rfl

/-- Witness for C4: the empty-string theorem at a concrete numericity
test and a concrete FIGI validator. -/
theorem query_empty_spec_witness :
    Query.fromStr Char.isDigit figiStub "" = Except.error InvalidQuery.Empty :=
  query_empty_spec Char.isDigit figiStub

/-- C5: for a non-empty string whose first character passes the
numericity test, Query parsing takes the contract-id branch: a
successful i64 parse yields IbContractId with Smart routing, and a
failed i64 parse yields the IbContractId error wrapping the integer
parse error. -/
theorem query_numeric_spec (isNum : Char → Bool)
    (pf : String → Except InvalidFigi Figi) (s : String)
    (c : Char) (cs : List Char) (hs : s.data = c :: cs)
    (hn : isNum c = true) :
    (∀ n, parseI64 s = Except.ok n →
        Query.fromStr isNum pf s
          = Except.ok (Query.IbContractId (ContractId.mk n) Routing.smart))
  ∧ (∀ e, parseI64 s = Except.error e →
        Query.fromStr isNum pf s = Except.error (InvalidQuery.IbContractId e)) := by
  constructor
  · intro n hp
    simp [Query.fromStr, hs, hn, ContractId.fromStr, hp, Except.map]
  · intro e hp
    simp [Query.fromStr, hs, hn, ContractId.fromStr, hp, Except.map]

/-- Witness for C5: the numeric-branch theorem at the concrete input
123. -/
theorem query_numeric_spec_witness :
    Query.fromStr Char.isDigit figiStub "123"
      = Except.ok (Query.IbContractId (ContractId.mk 123) Routing.smart) := by
  have h := query_numeric_spec Char.isDigit figiStub "123" '1' ['2', '3']
    rfl rfl
  exact h.1 123 rfl

/-- C6: for a non-empty string whose first character fails the
numericity test, Query parsing submits the whole string to the FIGI
validator: acceptance yields the Figi query, rejection yields the Figi
error wrapping the validation error, and no contract-id result or
contract-id error can be produced. -/
theorem query_figi_spec (isNum : Char → Bool)
    (pf : String → Except InvalidFigi Figi) (s : String)
    (c : Char) (cs : List Char) (hs : s.data = c :: cs)
    (hn : isNum c = false) :
    (∀ f, pf s = Except.ok f →
        Query.fromStr isNum pf s = Except.ok (Query.Figi f))
  ∧ (∀ e, pf s = Except.error e →
        Query.fromStr isNum pf s = Except.error (InvalidQuery.Figi e))
  ∧ (∀ cid r, Query.fromStr isNum pf s ≠ Except.ok (Query.IbContractId cid r))
  ∧ (∀ e, Query.fromStr isNum pf s ≠ Except.error (InvalidQuery.IbContractId e)) := by
  have hbranch : Query.fromStr isNum pf s
      = match pf s with
        | Except.ok f => Except.ok (Query.Figi f)
        | Except.error e => Except.error (InvalidQuery.Figi e) := by
    simp [Query.fromStr, hs, hn]
    rfl
  refine ⟨?_, ?_, ?_, ?_⟩
  · intro f hp
    rw [hbranch, hp]
  · intro e hp
    rw [hbranch, hp]
  · intro cid r hEq
    rw [hbranch] at hEq
    cases hpf : pf s <;> rw [hpf] at hEq <;> simp at hEq
  · intro e hEq
    rw [hbranch] at hEq
    cases hpf : pf s <;> rw [hpf] at hEq <;> simp at hEq

/-- Witness for C6: the FIGI-branch theorem at the sample FIGI of the
spec scenario. -/
theorem query_figi_spec_witness :
    Query.fromStr Char.isDigit figiStub "BBG000B9XRY4"
      = Except.ok (Query.Figi (Figi.mk "BBG000B9XRY4")) := by
  have h := query_figi_spec Char.isDigit figiStub "BBG000B9XRY4" 'B'
    "BG000B9XRY4".data rfl rfl
  exact h.1 (Figi.mk "BBG000B9XRY4") rfl

/-- C7: for every Proxy holding a Contract, the per-variant narrowing
operation of the held variant succeeds and returns a Proxy wrapping the
identical inner record (and the type-specific SecFuture accessors on
the narrowed Proxy read the original multiplier and expiration date),
while the narrowing operation of every other variant fails with the
wrong-contract-type message. -/
theorem proxy_narrow_spec (p : Proxy Contract) :
    ((∀ t, p.inner = Contract.Forex t → p.forex = Except.ok (Proxy.mk t))
      ∧ ((∀ t, p.inner ≠ Contract.Forex t) →
          p.forex = Except.error (wrongContractType "forex")))
  ∧ ((∀ t, p.inner = Contract.Crypto t → p.crypto = Except.ok (Proxy.mk t))
      ∧ ((∀ t, p.inner ≠ Contract.Crypto t) →
          p.crypto = Except.error (wrongContractType "crypto")))
  ∧ ((∀ t, p.inner = Contract.Stock t → p.stock = Except.ok (Proxy.mk t))
      ∧ ((∀ t, p.inner ≠ Contract.Stock t) →
          p.stock = Except.error (wrongContractType "stock")))
  ∧ ((∀ t, p.inner = Contract.Index t → p.index = Except.ok (Proxy.mk t))
      ∧ ((∀ t, p.inner ≠ Contract.Index t) →
          p.index = Except.error (wrongContractType "index")))
  ∧ ((∀ t, p.inner = Contract.Commodity t → p.commodity = Except.ok (Proxy.mk t))
      ∧ ((∀ t, p.inner ≠ Contract.Commodity t) →
          p.commodity = Except.error (wrongContractType "commodity")))
  ∧ ((∀ t, p.inner = Contract.SecFuture t →
        p.sec_future = Except.ok (Proxy.mk t)
          ∧ (Proxy.mk t).multiplier = t.multiplier
          ∧ (Proxy.mk t).expiration_date = t.expiration_date)
      ∧ ((∀ t, p.inner ≠ Contract.SecFuture t) →
          p.sec_future = Except.error (wrongContractType "sec_future")))
  ∧ ((∀ t, p.inner = Contract.SecOption t → p.sec_option = Except.ok (Proxy.mk t))
      ∧ ((∀ t, p.inner ≠ Contract.SecOption t) →
          p.sec_option = Except.error (wrongContractType "sec_option"))) := by
  obtain ⟨c⟩ := p
  cases c <;>
    refine ⟨⟨?_, ?_⟩, ⟨?_, ?_⟩, ⟨?_, ?_⟩, ⟨?_, ?_⟩, ⟨?_, ?_⟩, ⟨?_, ?_⟩, ⟨?_, ?_⟩⟩ <;>
    first
    | (intro t2 hEq; injection hEq with h; subst h; exact rfl)
    | (intro t2 hEq; injection hEq with h; subst h; exact ⟨rfl, rfl, rfl⟩)
    | (intro t2 hEq; exact Contract.noConfusion hEq)
    | (intro h; exact absurd rfl (h _))
    | (intro h; exact rfl)

/-- Witness for C7: a Proxy built from the SecFuture of the spec
scenario narrows to a SecFuture Proxy whose multiplier accessor returns
1000 and whose expiration date accessor returns 2024-03-15, and fails to
narrow to a Stock Proxy. -/
theorem proxy_narrow_spec_witness :
    (Proxy.mk (Contract.SecFuture sampleSecFuture)).sec_future
        = Except.ok (Proxy.mk sampleSecFuture)
  ∧ (Proxy.mk sampleSecFuture).multiplier = 1000
  ∧ (Proxy.mk sampleSecFuture).expiration_date = NaiveDate.mk 2024 3 15
  ∧ (Proxy.mk (Contract.SecFuture sampleSecFuture)).stock
        = Except.error (wrongContractType "stock") := by
  have h := proxy_narrow_spec (Proxy.mk (Contract.SecFuture sampleSecFuture))
  obtain ⟨hok, hm, he⟩ := h.2.2.2.2.2.1.1 sampleSecFuture rfl
  refine ⟨hok, ?_, ?_, ?_⟩
  · rw [hm]
    exact rfl
  · rw [he]
    exact rfl
  · exact h.2.2.1.2 (fun t2 hEq => Contract.noConfusion hEq)

/-- C8: each of the eight capability accessors on a Contract equals the
same accessor applied directly to the wrapped concrete record, for every
variant. -/
theorem contract_dispatch_spec (fx : Forex) (cr : Crypto) (stk : Stock)
    (ind : Index) (fut : SecFuture) (opt : SecOption) (cmdty : Commodity) :
    (Security.contract_id (Contract.Forex fx) = Security.contract_id fx
      ∧ Security.min_tick (Contract.Forex fx) = Security.min_tick fx
      ∧ Security.symbol (Contract.Forex fx) = Security.symbol fx
      ∧ Security.currency (Contract.Forex fx) = Security.currency fx
      ∧ Security.local_symbol (Contract.Forex fx) = Security.local_symbol fx
      ∧ Security.long_name (Contract.Forex fx) = Security.long_name fx
      ∧ Security.order_types (Contract.Forex fx) = Security.order_types fx
      ∧ Security.valid_exchanges (Contract.Forex fx) = Security.valid_exchanges fx)
  ∧ (Security.contract_id (Contract.Crypto cr) = Security.contract_id cr
      ∧ Security.min_tick (Contract.Crypto cr) = Security.min_tick cr
      ∧ Security.symbol (Contract.Crypto cr) = Security.symbol cr
      ∧ Security.currency (Contract.Crypto cr) = Security.currency cr
      ∧ Security.local_symbol (Contract.Crypto cr) = Security.local_symbol cr
      ∧ Security.long_name (Contract.Crypto cr) = Security.long_name cr
      ∧ Security.order_types (Contract.Crypto cr) = Security.order_types cr
      ∧ Security.valid_exchanges (Contract.Crypto cr) = Security.valid_exchanges cr)
  ∧ (Security.contract_id (Contract.Stock stk) = Security.contract_id stk
      ∧ Security.min_tick (Contract.Stock stk) = Security.min_tick stk
      ∧ Security.symbol (Contract.Stock stk) = Security.symbol stk
      ∧ Security.currency (Contract.Stock stk) = Security.currency stk
      ∧ Security.local_symbol (Contract.Stock stk) = Security.local_symbol stk
      ∧ Security.long_name (Contract.Stock stk) = Security.long_name stk
      ∧ Security.order_types (Contract.Stock stk) = Security.order_types stk
      ∧ Security.valid_exchanges (Contract.Stock stk) = Security.valid_exchanges stk)
  ∧ (Security.contract_id (Contract.Index ind) = Security.contract_id ind
      ∧ Security.min_tick (Contract.Index ind) = Security.min_tick ind
      ∧ Security.symbol (Contract.Index ind) = Security.symbol ind
      ∧ Security.currency (Contract.Index ind) = Security.currency ind
      ∧ Security.local_symbol (Contract.Index ind) = Security.local_symbol ind
      ∧ Security.long_name (Contract.Index ind) = Security.long_name ind
      ∧ Security.order_types (Contract.Index ind) = Security.order_types ind
      ∧ Security.valid_exchanges (Contract.Index ind) = Security.valid_exchanges ind)
  ∧ (Security.contract_id (Contract.SecFuture fut) = Security.contract_id fut
      ∧ Security.min_tick (Contract.SecFuture fut) = Security.min_tick fut
      ∧ Security.symbol (Contract.SecFuture fut) = Security.symbol fut
      ∧ Security.currency (Contract.SecFuture fut) = Security.currency fut
      ∧ Security.local_symbol (Contract.SecFuture fut) = Security.local_symbol fut
      ∧ Security.long_name (Contract.SecFuture fut) = Security.long_name fut
      ∧ Security.order_types (Contract.SecFuture fut) = Security.order_types fut
      ∧ Security.valid_exchanges (Contract.SecFuture fut) = Security.valid_exchanges fut)
  ∧ (Security.contract_id (Contract.SecOption opt) = Security.contract_id opt
      ∧ Security.min_tick (Contract.SecOption opt) = Security.min_tick opt
      ∧ Security.symbol (Contract.SecOption opt) = Security.symbol opt
      ∧ Security.currency (Contract.SecOption opt) = Security.currency opt
      ∧ Security.local_symbol (Contract.SecOption opt) = Security.local_symbol opt
      ∧ Security.long_name (Contract.SecOption opt) = Security.long_name opt
      ∧ Security.order_types (Contract.SecOption opt) = Security.order_types opt
      ∧ Security.valid_exchanges (Contract.SecOption opt) = Security.valid_exchanges opt)
  ∧ (Security.contract_id (Contract.Commodity cmdty) = Security.contract_id cmdty
      ∧ Security.min_tick (Contract.Commodity cmdty) = Security.min_tick cmdty
      ∧ Security.symbol (Contract.Commodity cmdty) = Security.symbol cmdty
      ∧ Security.currency (Contract.Commodity cmdty) = Security.currency cmdty
      ∧ Security.local_symbol (Contract.Commodity cmdty) = Security.local_symbol cmdty
      ∧ Security.long_name (Contract.Commodity cmdty) = Security.long_name cmdty
      ∧ Security.order_types (Contract.Commodity cmdty) = Security.order_types cmdty
      ∧ Security.valid_exchanges (Contract.Commodity cmdty)
          = Security.valid_exchanges cmdty) :=
  ⟨⟨rfl, rfl, rfl, rfl, rfl, rfl, rfl, rfl⟩,
    ⟨rfl, rfl, rfl, rfl, rfl, rfl, rfl, rfl⟩,
    ⟨rfl, rfl, rfl, rfl, rfl, rfl, rfl, rfl⟩,
    ⟨rfl, rfl, rfl, rfl, rfl, rfl, rfl, rfl⟩,
    ⟨rfl, rfl, rfl, rfl, rfl, rfl, rfl, rfl⟩,
    ⟨rfl, rfl, rfl, rfl, rfl, rfl, rfl, rfl⟩,
    ⟨rfl, rfl, rfl, rfl, rfl, rfl, rfl, rfl⟩⟩

/-- Witness for C8: the dispatch theorem applied at concrete records,
projected to the Stock contract-id equation. -/
theorem contract_dispatch_spec_witness :
    Security.contract_id (Contract.Stock sampleStock)
      = Security.contract_id sampleStock :=
  (contract_dispatch_spec sampleForex sampleCrypto sampleStock sampleIndex
    sampleSecFuture sampleSecOption sampleCommodity).2.2.1.1

/-- C9: for every SecOption, exactly one of is_call and is_put is true
(is_put is by definition the negation of is_call), and the inner record
returned by as_inner_ref and into_inner is the same record the value was
constructed from, whichever tag is held. -/
theorem secoption_spec (o : SecOption) (inner : SecOptionInner) :
    (o.is_call = !o.is_put)
  ∧ ((o.is_call = true ∧ o.is_put = false) ∨ (o.is_call = false ∧ o.is_put = true))
  ∧ (o.as_inner_ref = o.into_inner)
  ∧ ((SecOption.Call inner).as_inner_ref = inner)
  ∧ ((SecOption.Put inner).as_inner_ref = inner)
  ∧ ((SecOption.Call inner).into_inner = inner)
  ∧ ((SecOption.Put inner).into_inner = inner) := by
  cases o with
  | Call i => exact ⟨rfl, Or.inl ⟨rfl, rfl⟩, rfl, rfl, rfl, rfl, rfl⟩
  | Put i => exact ⟨rfl, Or.inr ⟨rfl, rfl⟩, rfl, rfl, rfl, rfl, rfl⟩

/-- Witness for C9: the SecOption theorem at a concrete put option. -/
theorem secoption_spec_witness :
    (sampleSecOption.is_call = false ∧ sampleSecOption.is_put = true)
  ∨ (sampleSecOption.is_call = true ∧ sampleSecOption.is_put = false) :=
  match (secoption_spec sampleSecOption sampleInner).2.1 with
  | Or.inl h => Or.inr h
  | Or.inr h => Or.inl h

/-- C10: a non-empty string whose first character is neither numeric nor
a letter, for example one starting with a sign, takes the FIGI branch of
Query parsing: the result is the FIGI branch outcome, and no contract-id
result or contract-id parse error can be produced. -/
theorem query_sign_spec (isNum : Char → Bool)
    (pf : String → Except InvalidFigi Figi) (s : String)
    (c : Char) (cs : List Char) (hs : s.data = c :: cs)
    (hn : isNum c = false) (ha : c.isAlpha = false) :
    (Query.fromStr isNum pf s
        = match pf s with
          | Except.ok f => Except.ok (Query.Figi f)
          | Except.error e => Except.error (InvalidQuery.Figi e))
  ∧ (∀ e, Query.fromStr isNum pf s ≠ Except.error (InvalidQuery.IbContractId e))
  ∧ (∀ cid r, Query.fromStr isNum pf s ≠ Except.ok (Query.IbContractId cid r)) := by
  have hbranch : Query.fromStr isNum pf s
      = match pf s with
        | Except.ok f => Except.ok (Query.Figi f)
        | Except.error e => Except.error (InvalidQuery.Figi e) := by
    simp [Query.fromStr, hs, hn]
    rfl
  refine ⟨hbranch, ?_, ?_⟩
  · intro e hEq
    rw [hbranch] at hEq
    cases hpf : pf s <;> rw [hpf] at hEq <;> simp at hEq
  · intro cid r hEq
    rw [hbranch] at hEq
    cases hpf : pf s <;> rw [hpf] at hEq <;> simp at hEq

/-- Witness for C10: parsing the sign-leading string -123 surfaces a
FIGI error, not a contract-id error. -/
theorem query_sign_spec_witness :
    Query.fromStr Char.isDigit figiStub "-123"
      = Except.error (InvalidQuery.Figi (InvalidFigi.mk "-123")) := by
  have h := query_sign_spec Char.isDigit figiStub "-123" '-' "123".data
    rfl rfl rfl
  rw [h.1]
  rfl
